import Mathlib

/-!
Verification of the SurveyStorm weather-dashboard core (src/app.py).

Shallow embedding of the three core components:
* `DWDDataFetcher.find_nearest_station` — nearest-station search over the
  static catalog (planar Euclidean degree distance, first minimum wins);
* `DWDDataFetcher.generate_weather_data` — synthetic hourly series
  generation (timestamps are modelled as rational hours, values as reals,
  with the random draws passed in explicitly as a `Randomness` record);
* `WeatherAnalyzer.calculate_ssi` — per-timestamp sub-scores, the weighted
  Survey Suitability Index, the `pd.cut` category and the colour lookup.

Numbers are modelled exactly: Python float literals such as `6.67` and
`0.15` become the rationals `667/100` and `15/100`; the scorer is generic
over a linear ordered field so it can be run on `ℚ` (executable, for
witnesses) and composed with the real-valued generator output.
-/

namespace SurveyStorm

/-- A station record, as in `get_default_stations` (src/app.py lines 41-49). -/
structure Station where
  station_id : String
  name : String
  lat : ℚ
  lon : ℚ
  height : ℚ
deriving DecidableEq, Repr

/-- The static demo catalog from `get_default_stations`. -/
def get_default_stations : List Station :=
  [ ⟨"00954", "Hamburg-Fuhlsbuettel", 536332/10000, 99881/10000, 11⟩,
    ⟨"01975", "Hamburg-Neuwiedenthal", 534777/10000, 98966/10000, 3⟩,
    ⟨"05516", "Schleswig", 545276/10000, 95490/10000, 43⟩,
    ⟨"00691", "Bremen", 530475/10000, 87981/10000, 5⟩,
    ⟨"00891", "Cuxhaven", 538706/10000, 87211/10000, 5⟩,
    ⟨"03032", "Luebeck", 538072/10000, 107083/10000, 15⟩,
    ⟨"01757", "Kiel-Holtenau", 543774/10000, 101424/10000, 27⟩ ]

/-- Squared planar degree-space distance from the query `(lat, lon)` to a
station; `find_nearest_station` computes `sqrt` of this (src/app.py 56-57).
Comparing squared distances is order-equivalent to comparing the `sqrt`
distances, which the theorems make explicit via `Real.sqrt`. -/
def distSq (lat lon : ℚ) (s : Station) : ℚ :=
  (s.lat - lat) ^ 2 + (s.lon - lon) ^ 2

/-- One step of the running minimum: keep `best` unless `t` is strictly
closer (so the first minimum in iteration order wins, as `idxmin` does). -/
def nearBetter (lat lon : ℚ) (best t : Station) : Station :=
  if distSq lat lon t < distSq lat lon best then t else best

/-- Running minimum over the remaining catalog entries. -/
def nearestFrom (lat lon : ℚ) (best : Station) : List Station → Station
  | [] => best
  | t :: rest => nearestFrom lat lon (nearBetter lat lon best t) rest

/-- `DWDDataFetcher.find_nearest_station` (src/app.py 51-61): `None` on an
empty catalog, otherwise the first catalog record minimizing the Euclidean
degree distance, paired with its squared degree distance (the kilometre
figure of the source is `Real.sqrt` of this times 111). -/
def find_nearest_station (catalog : List Station) (lat lon : ℚ) :
    Option (Station × ℚ) :=
  match catalog with
  | [] => none
  | s :: rest =>
      let best := nearestFrom lat lon s rest
      some (best, distSq lat lon best)

/-! ## Synthetic weather generation (`generate_weather_data`) -/

/-- The random draws consumed by one call of `generate_weather_data`,
indexed by position in the series.  `rainUniform` models
`np.random.random`, `rainExp` the `np.random.exponential(2)` draws,
`cloudFactor` the `np.random.beta(2, 5)` draws, and the `*Noise` fields
the `np.random.normal` draws. -/
structure Randomness where
  tempNoise : ℕ → ℝ
  rainUniform : ℕ → ℝ
  rainExp : ℕ → ℝ
  windNoise : ℕ → ℝ
  cloudFactor : ℕ → ℝ
  cloudNoise : ℕ → ℝ

/-- Timestamp (in hours, rational) of index `i` in the generated range:
`now - hours + i`, as produced by `pd.date_range(end - hours, end, freq=H)`. -/
def tsAt (now : ℚ) (hours i : ℕ) : ℚ := now - hours + i

/-- The hourly timestamp index of length `hours + 1` ending at `now`. -/
def dateRange (now : ℚ) (hours : ℕ) : List ℚ :=
  (List.range (hours + 1)).map (tsAt now hours)

/-- Hour-of-day of a timestamp measured in hours since a midnight epoch
(models `d.hour` for the pandas timestamps). -/
def hourOfDay (t : ℚ) : ℤ := ⌊t⌋ % 24

/-- A single generated series: the shared timestamp index paired with the
per-index values. -/
def series (now : ℚ) (hours : ℕ) (v : ℕ → ℝ) : List (ℚ × ℝ) :=
  (List.range (hours + 1)).map (fun i => (tsAt now hours i, v i))

/-- `temperature_c` at index `i` (src/app.py 77-81):
`12 + 8·sin(2π·progress) + 5·sin(2π·(hour−6)/24) + Normal(0,1)` with
`progress = i / n_hours` and `n_hours = hours + 1`. -/
noncomputable def temperatureAt (now : ℚ) (hours : ℕ) (rnd : Randomness)
    (i : ℕ) : ℝ :=
  12 + 8 * Real.sin (2 * Real.pi * ((i : ℝ) / ((hours : ℝ) + 1)))
    + 5 * Real.sin (2 * Real.pi * (((hourOfDay (tsAt now hours i) : ℤ) : ℝ) - 6) / 24)
    + rnd.tempNoise i

/-- `precipitation_mm` at index `i` (src/app.py 85-88): an exponential
draw when the uniform draw falls below 0.2, else 0. -/
noncomputable def precipitationAt (rnd : Randomness) (i : ℕ) : ℝ :=
  if rnd.rainUniform i < 1/5 then rnd.rainExp i else 0

/-- `wind_speed_ms` at index `i` (src/app.py 92-94). -/
noncomputable def windAt (hours : ℕ) (rnd : Randomness) (i : ℕ) : ℝ :=
  8 + 4 * Real.sin (2 * Real.pi * ((i : ℝ) / ((hours : ℝ) + 1)) * 2)
    + rnd.windNoise i

/-- `sunshine_minutes` at index `i` (src/app.py 98-102): during daylight
hours (6..20) it is `60·(1 − beta draw)`, otherwise 0. -/
noncomputable def sunshineAt (now : ℚ) (hours : ℕ) (rnd : Randomness)
    (i : ℕ) : ℝ :=
  if 6 ≤ hourOfDay (tsAt now hours i) ∧ hourOfDay (tsAt now hours i) ≤ 20 then
    60 * (1 - rnd.cloudFactor i)
  else 0

/-- `cloud_cover_oktas` at index `i` (src/app.py 106-108), not clamped at
generation time. -/
noncomputable def cloudAt (hours : ℕ) (rnd : Randomness) (i : ℕ) : ℝ :=
  4 + 3 * Real.sin (2 * Real.pi * ((i : ℝ) / ((hours : ℝ) + 1)) * (3/2))
    + rnd.cloudNoise i

/-- The five generated series, all over the same timestamp index. -/
structure WeatherSeriesData where
  temperature : List (ℚ × ℝ)
  precipitation : List (ℚ × ℝ)
  wind : List (ℚ × ℝ)
  sunshine : List (ℚ × ℝ)
  cloudiness : List (ℚ × ℝ)

/-- `DWDDataFetcher.generate_weather_data` (src/app.py 63-111).  `now` is
the single evaluation of `datetime.now()`, `rnd` the random draws of this
call.  The `station_id` argument is accepted but never read, exactly as in
the source. -/
noncomputable def generate_weather_data (station_id : String) (hours : ℕ)
    (now : ℚ) (rnd : Randomness) : WeatherSeriesData :=
  { temperature := series now hours (temperatureAt now hours rnd)
    precipitation := series now hours (precipitationAt rnd)
    wind := series now hours (windAt hours rnd)
    sunshine := series now hours (sunshineAt now hours rnd)
    cloudiness := series now hours (cloudAt hours rnd) }

/-! ## The SSI scorer (`WeatherAnalyzer.calculate_ssi`) -/

/-- `np.clip x lo hi` / pandas `.clip(lo, hi)`. -/
def clip {α : Type} [LinearOrderedField α] (x lo hi : α) : α :=
  min (max x lo) hi

/-- Temperature sub-score (src/app.py 130-134). -/
def temp_score {α : Type} [LinearOrderedField α] (t : α) : α :=
  if 15 ≤ t ∧ t ≤ 25 then 100
  else if 10 ≤ t ∧ t ≤ 30 then 75
  else if 5 ≤ t ∧ t ≤ 35 then 50
  else 25

/-- Precipitation sub-score `np.clip(100 - precip * 10, 0, 100)`
(src/app.py 138). -/
def precip_score {α : Type} [LinearOrderedField α] (p : α) : α :=
  clip (100 - p * 10) 0 100

/-- Wind sub-score `np.clip(100 - (wind - 5) * 6.67, 0, 100)`
(src/app.py 142). -/
def wind_score {α : Type} [LinearOrderedField α] (w : α) : α :=
  clip (100 - (w - 5) * (667/100)) 0 100

/-- Sunshine sub-score `25 + (sun / 60) * 75` (src/app.py 146) — no clamp. -/
def sun_score {α : Type} [LinearOrderedField α] (s : α) : α :=
  25 + (s / 60) * 75

/-- Cloud sub-score `100 - (cloud.clip(0, 8) / 8) * 75` (src/app.py 149-150). -/
def cloud_score {α : Type} [LinearOrderedField α] (c : α) : α :=
  100 - (clip c 0 8 / 8) * 75

/-- The weighted composite SSI (src/app.py 153-161): weights
0.15, 0.35, 0.30, 0.10, 0.10 for temp, precip, wind, sun, cloud. -/
def SSI_of {α : Type} [LinearOrderedField α] (ts ps ws ss cs : α) : α :=
  ts * (15/100) + ps * (35/100) + ws * (30/100) + ss * (10/100) + cs * (10/100)

/-- The three category labels of `pd.cut(..., labels=[Poor, Moderate, Good])`. -/
inductive Category where
  | Poor
  | Moderate
  | Good
deriving DecidableEq, Repr

/-- `pd.cut(ssi, bins=[0, 40, 70, 100], labels=[Poor, Moderate, Good])`
(src/app.py 163-165).  With pandas defaults (`right=True`,
`include_lowest=False`) the bins are the half-open intervals `(0, 40]`,
`(40, 70]`, `(70, 100]`; any value outside them — including exactly 0 —
gets the missing value `NaN`, modelled as `none`. -/
def categorize {α : Type} [LinearOrderedField α] (s : α) : Option Category :=
  if 0 < s ∧ s ≤ 40 then some Category.Poor
  else if 40 < s ∧ s ≤ 70 then some Category.Moderate
  else if 70 < s ∧ s ≤ 100 then some Category.Good
  else none

/-- The colour lookup `category.map({...})` (src/app.py 167-171); a missing
category maps to a missing colour. -/
def colorOf : Option Category → Option String
  | some Category.Poor => some "#FF4444"
  | some Category.Moderate => some "#FFA500"
  | some Category.Good => some "#44FF44"
  | none => none

/-- One merged input row of `calculate_ssi`: the five weather parameters at
one shared timestamp (the source merges the five single-column frames on
their identical `datetime` index; for structurally valid input this is a
positional zip). -/
structure WeatherRow (α : Type) where
  temperature_c : α
  precipitation_mm : α
  wind_speed_ms : α
  sunshine_minutes : α
  cloud_cover_oktas : α
deriving DecidableEq, Repr

/-- One output row of `calculate_ssi`: the five sub-scores, the composite
SSI, the category and the colour. -/
structure ScoredRow (α : Type) where
  temp_score : α
  precip_score : α
  wind_score : α
  sun_score : α
  cloud_score : α
  SSI : α
  category : Option Category
  color : Option String
deriving DecidableEq, Repr

/-- Scoring of a single merged row (the per-timestamp body of
`WeatherAnalyzer.calculate_ssi`, src/app.py 128-171). -/
def scoreRow {α : Type} [LinearOrderedField α] (w : WeatherRow α) : ScoredRow α where
  temp_score := temp_score w.temperature_c
  precip_score := precip_score w.precipitation_mm
  wind_score := wind_score w.wind_speed_ms
  sun_score := sun_score w.sunshine_minutes
  cloud_score := cloud_score w.cloud_cover_oktas
  SSI := SSI_of (temp_score w.temperature_c) (precip_score w.precipitation_mm)
    (wind_score w.wind_speed_ms) (sun_score w.sunshine_minutes)
    (cloud_score w.cloud_cover_oktas)
  category := categorize (SSI_of (temp_score w.temperature_c)
    (precip_score w.precipitation_mm) (wind_score w.wind_speed_ms)
    (sun_score w.sunshine_minutes) (cloud_score w.cloud_cover_oktas))
  color := colorOf (categorize (SSI_of (temp_score w.temperature_c)
    (precip_score w.precipitation_mm) (wind_score w.wind_speed_ms)
    (sun_score w.sunshine_minutes) (cloud_score w.cloud_cover_oktas)))

/-- `WeatherAnalyzer.calculate_ssi` (src/app.py 117-173) on a structurally
valid (time-aligned) input: row-wise scoring in timestamp order. -/
def calculate_ssi {α : Type} [LinearOrderedField α]
    (input : List (WeatherRow α)) : List (ScoredRow α) :=
  input.map scoreRow

/-! ## Helper lemmas about the scorer -/

variable {α : Type} [LinearOrderedField α]

lemma clip_le_hi (x lo hi : α) : clip x lo hi ≤ hi := min_le_right _ _

lemma lo_le_clip (x lo hi : α) (h : lo ≤ hi) : lo ≤ clip x lo hi :=
  le_min (le_max_right _ _) h

lemma clip_zero_hundred (x : α) : clip x 0 100 = max 0 (min x 100) := by
  unfold clip
  rcases le_total x 0 with h | h
  · rw [max_eq_right h, min_eq_left (by linarith : x ≤ (100 : α)),
      max_eq_left h]
    exact min_eq_left (by norm_num)
  · rw [max_eq_left h]
    rcases le_total x 100 with h2 | h2
    · rw [min_eq_left h2]
      exact (max_eq_right h).symm
    · rw [min_eq_right h2]
      exact (max_eq_right (by norm_num)).symm

lemma temp_score_cases (t : α) :
    temp_score t = 25 ∨ temp_score t = 50 ∨ temp_score t = 75 ∨
      temp_score t = 100 := by
  unfold temp_score
  split_ifs <;> simp

lemma temp_score_ge (t : α) : 25 ≤ temp_score t := by
  unfold temp_score
  split_ifs <;> norm_num

lemma sun_score_ge {s : α} (h : 0 ≤ s) : 25 ≤ sun_score s := by
  unfold sun_score
  have h75 : 0 ≤ s / 60 * 75 := by positivity
  linarith

lemma sun_score_le {s : α} (h : s ≤ 60) : sun_score s ≤ 100 := by
  unfold sun_score
  linarith

lemma sun_score_gt {s : α} (h : 60 < s) : 100 < sun_score s := by
  unfold sun_score
  linarith

lemma cloud_score_bounds (c : α) :
    25 ≤ cloud_score c ∧ cloud_score c ≤ 100 := by
  have h0 : (0 : α) ≤ clip c 0 8 := lo_le_clip c 0 8 (by norm_num)
  have h8 : clip c 0 8 ≤ 8 := clip_le_hi c 0 8
  unfold cloud_score
  constructor <;> linarith

lemma categorize_iff (s : α) :
    (categorize s = some Category.Poor ↔ 0 < s ∧ s ≤ 40) ∧
    (categorize s = some Category.Moderate ↔ 40 < s ∧ s ≤ 70) ∧
    (categorize s = some Category.Good ↔ 70 < s ∧ s ≤ 100) := by
  unfold categorize
  split_ifs with h1 h2 h3
  · exact ⟨iff_of_true rfl h1,
      iff_of_false (by decide) (by rintro ⟨c, d⟩; rcases h1 with ⟨a, b⟩; linarith),
      iff_of_false (by decide) (by rintro ⟨c, d⟩; rcases h1 with ⟨a, b⟩; linarith)⟩
  · exact ⟨iff_of_false (by decide) h1, iff_of_true rfl h2,
      iff_of_false (by decide) (by rintro ⟨c, d⟩; rcases h2 with ⟨a, b⟩; linarith)⟩
  · exact ⟨iff_of_false (by decide) h1, iff_of_false (by decide) h2,
      iff_of_true rfl h3⟩
  · exact ⟨iff_of_false (by decide) h1, iff_of_false (by decide) h2,
      iff_of_false (by decide) h3⟩

/-! ## Claim theorems -/

/-- C1 (counterexample): the claim says SSI exactly 0 maps to `Poor`, but
`pd.cut` with `bins=[0, 40, 70, 100]` leaves the left edge 0 outside every
bin.  On the concrete merged row (T=0, P=10, W=20, S=−70, C=8) the SSI is
exactly 0 and the assigned category is the missing value, not `Poor`. -/
theorem C1_counterexample :
    (calculate_ssi [(⟨0, 10, 20, -70, 8⟩ : WeatherRow ℚ)]).map ScoredRow.SSI = [0] ∧
    (calculate_ssi [(⟨0, 10, 20, -70, 8⟩ : WeatherRow ℚ)]).map ScoredRow.category = [none] ∧
    (calculate_ssi [(⟨0, 10, 20, -70, 8⟩ : WeatherRow ℚ)]).map ScoredRow.category ≠
      [some Category.Poor] := by
  norm_num [calculate_ssi, scoreRow, SSI_of, temp_score, precip_score,
    wind_score, sun_score, cloud_score, clip, categorize, min_def, max_def]
  exact fun h => Option.noConfusion h

/-- C1 (amended): for every scored series, the category at each timestamp
is `Poor` iff SSI ∈ (0,40], `Moderate` iff SSI ∈ (40,70], `Good` iff
SSI ∈ (70,100]; in particular SSI exactly 40 maps to `Poor`, 70 to
`Moderate` and 70.01 to `Good`, but SSI exactly 0 receives no category. -/
theorem C1_category_buckets (input : List (WeatherRow ℚ)) (r : ScoredRow ℚ)
    (hr : r ∈ calculate_ssi input) :
    (r.category = some Category.Poor ↔ 0 < r.SSI ∧ r.SSI ≤ 40) ∧
    (r.category = some Category.Moderate ↔ 40 < r.SSI ∧ r.SSI ≤ 70) ∧
    (r.category = some Category.Good ↔ 70 < r.SSI ∧ r.SSI ≤ 100) := by
  obtain ⟨w, _, rfl⟩ := List.mem_map.1 hr
  exact categorize_iff _

/-- C1 witness: the buckets instantiated at a concrete scored row whose
SSI is exactly 40 (T=0, P=10, W=20, S=250, C=8). -/
theorem C1_witness :
    ((scoreRow (⟨0, 10, 20, 250, 8⟩ : WeatherRow ℚ)).category = some Category.Poor ↔
      0 < (scoreRow (⟨0, 10, 20, 250, 8⟩ : WeatherRow ℚ)).SSI ∧
        (scoreRow (⟨0, 10, 20, 250, 8⟩ : WeatherRow ℚ)).SSI ≤ 40) ∧
    ((scoreRow (⟨0, 10, 20, 250, 8⟩ : WeatherRow ℚ)).category = some Category.Moderate ↔
      40 < (scoreRow (⟨0, 10, 20, 250, 8⟩ : WeatherRow ℚ)).SSI ∧
        (scoreRow (⟨0, 10, 20, 250, 8⟩ : WeatherRow ℚ)).SSI ≤ 70) ∧
    ((scoreRow (⟨0, 10, 20, 250, 8⟩ : WeatherRow ℚ)).category = some Category.Good ↔
      70 < (scoreRow (⟨0, 10, 20, 250, 8⟩ : WeatherRow ℚ)).SSI ∧
        (scoreRow (⟨0, 10, 20, 250, 8⟩ : WeatherRow ℚ)).SSI ≤ 100) :=
  C1_category_buckets [⟨0, 10, 20, 250, 8⟩] (scoreRow ⟨0, 10, 20, 250, 8⟩)
    (List.mem_singleton.2 rfl)

/-- C2: at every timestamp the composite SSI equals
`0.15·temp + 0.35·precip + 0.30·wind + 0.10·sun + 0.10·cloud`, the weights
sum to 1, and when all five sub-scores are 100 the SSI is 100, the
category `Good` and the colour `#44FF44`. -/
theorem C2_weighted_sum (input : List (WeatherRow ℚ)) (r : ScoredRow ℚ)
    (hr : r ∈ calculate_ssi input) :
    r.SSI = (15/100) * r.temp_score + (35/100) * r.precip_score
      + (30/100) * r.wind_score + (10/100) * r.sun_score
      + (10/100) * r.cloud_score ∧
    ((15 : ℚ)/100 + 35/100 + 30/100 + 10/100 + 10/100 = 1) ∧
    (r.temp_score = 100 ∧ r.precip_score = 100 ∧ r.wind_score = 100 ∧
      r.sun_score = 100 ∧ r.cloud_score = 100 →
      r.SSI = 100 ∧ r.category = some Category.Good ∧
        r.color = some "#44FF44") := by
  obtain ⟨w, _, rfl⟩ := List.mem_map.1 hr
  have hS : (scoreRow w).SSI = SSI_of (scoreRow w).temp_score
      (scoreRow w).precip_score (scoreRow w).wind_score
      (scoreRow w).sun_score (scoreRow w).cloud_score := rfl
  have hC : (scoreRow w).category = categorize ((scoreRow w).SSI) := rfl
  have hCol : (scoreRow w).color = colorOf ((scoreRow w).category) := rfl
  refine ⟨by rw [hS]; unfold SSI_of; ring, by norm_num, ?_⟩
  rintro ⟨h1, h2, h3, h4, h5⟩
  have h100 : (scoreRow w).SSI = 100 := by
    rw [hS, h1, h2, h3, h4, h5]
    norm_num [SSI_of]
  refine ⟨h100, ?_, ?_⟩
  · rw [hC, h100]
    norm_num [categorize]
  · rw [hCol, hC, h100]
    norm_num [categorize, colorOf]

/-- C2 witness: the merged row (T=20, P=0, W=5, S=60, C=0) yields all five
sub-scores equal to 100. -/
theorem C2_witness :
    (scoreRow (⟨20, 0, 5, 60, 0⟩ : WeatherRow ℚ)).SSI = 100 ∧
    (scoreRow (⟨20, 0, 5, 60, 0⟩ : WeatherRow ℚ)).category = some Category.Good ∧
    (scoreRow (⟨20, 0, 5, 60, 0⟩ : WeatherRow ℚ)).color = some "#44FF44" :=
  (C2_weighted_sum [⟨20, 0, 5, 60, 0⟩] (scoreRow ⟨20, 0, 5, 60, 0⟩)
    (List.mem_singleton.2 rfl)).2.2
    (by norm_num [scoreRow, temp_score, precip_score, wind_score, sun_score,
      cloud_score, clip, min_def, max_def])

/-- C3: the per-timestamp sub-scores are computed exactly as the spec's
formulas state: the four-level temperature bucketing, precip
`clip(100 − 10·P, 0, 100)` and wind `clip(100 − 6.67·(W−5), 0, 100)`
(with `clip` spelt out as `max 0 (min · 100)`), and `calculate_ssi` is the
row-wise map of this scoring over the merged series. -/
theorem C3_subscore_formulas (input : List (WeatherRow ℚ)) (w : WeatherRow ℚ) :
    calculate_ssi input = input.map scoreRow ∧
    (scoreRow w).temp_score =
      (if 15 ≤ w.temperature_c ∧ w.temperature_c ≤ 25 then 100
       else if 10 ≤ w.temperature_c ∧ w.temperature_c ≤ 30 then 75
       else if 5 ≤ w.temperature_c ∧ w.temperature_c ≤ 35 then 50
       else 25) ∧
    (scoreRow w).precip_score =
      max 0 (min (100 - 10 * w.precipitation_mm) 100) ∧
    (scoreRow w).wind_score =
      max 0 (min (100 - (667/100) * (w.wind_speed_ms - 5)) 100) := by
  refine ⟨rfl, rfl, ?_, ?_⟩
  · show clip (100 - w.precipitation_mm * 10) 0 100 = _
    rw [show (100 - w.precipitation_mm * 10 : ℚ)
        = 100 - 10 * w.precipitation_mm by ring]
    exact clip_zero_hundred _
  · show clip (100 - (w.wind_speed_ms - 5) * (667/100)) 0 100 = _
    rw [show (100 - (w.wind_speed_ms - 5) * (667/100) : ℚ)
        = 100 - (667/100) * (w.wind_speed_ms - 5) by ring]
    exact clip_zero_hundred _

/-- C4: sun_score is `25 + 75·(S/60)` with no upper clamp (strictly above
100 whenever S > 60), cloud_score is `100 − 75·(clip(C,0,8)/8)`, and the
other sub-scores stay in their documented clipped ranges:
temp ∈ {25,50,75,100}, precip and wind in [0,100], cloud in [25,100]. -/
theorem C4_sun_unclamped_others_clipped (w : WeatherRow ℚ) :
    (scoreRow w).sun_score = 25 + 75 * (w.sunshine_minutes / 60) ∧
    (60 < w.sunshine_minutes → 100 < (scoreRow w).sun_score) ∧
    (scoreRow w).cloud_score = 100 - 75 * (clip w.cloud_cover_oktas 0 8 / 8) ∧
    ((scoreRow w).temp_score = 25 ∨ (scoreRow w).temp_score = 50 ∨
      (scoreRow w).temp_score = 75 ∨ (scoreRow w).temp_score = 100) ∧
    (0 ≤ (scoreRow w).precip_score ∧ (scoreRow w).precip_score ≤ 100) ∧
    (0 ≤ (scoreRow w).wind_score ∧ (scoreRow w).wind_score ≤ 100) ∧
    (25 ≤ (scoreRow w).cloud_score ∧ (scoreRow w).cloud_score ≤ 100) := by
  refine ⟨by show sun_score _ = _; unfold sun_score; ring,
    fun h => sun_score_gt h,
    by show cloud_score _ = _; unfold cloud_score; ring,
    temp_score_cases _,
    ⟨lo_le_clip _ _ _ (by norm_num), clip_le_hi _ _ _⟩,
    ⟨lo_le_clip _ _ _ (by norm_num), clip_le_hi _ _ _⟩,
    cloud_score_bounds _⟩

/-- C4 witness: at S = 120 > 60 the unclamped sun_score exceeds 100. -/
theorem C4_witness :
    (60 : ℚ) < 120 ∧
    100 < (scoreRow (⟨20, 0, 5, 120, 0⟩ : WeatherRow ℚ)).sun_score :=
  ⟨by norm_num,
    (C4_sun_unclamped_others_clipped ⟨20, 0, 5, 120, 0⟩).2.1 (by norm_num)⟩

/-- C9: on structurally valid input whose sunshine values are all
non-negative, every computed SSI is at least 8.75 (= 35/4); in particular
SSI values of 0 or below never occur on such inputs. -/
theorem C9_ssi_lower_bound (input : List (WeatherRow ℚ))
    (hs : ∀ w ∈ input, 0 ≤ w.sunshine_minutes) (r : ScoredRow ℚ)
    (hr : r ∈ calculate_ssi input) :
    35/4 ≤ r.SSI ∧ ¬ r.SSI ≤ 0 := by
  obtain ⟨w, hw, rfl⟩ := List.mem_map.1 hr
  have h0 := hs w hw
  have hts := temp_score_ge (α := ℚ) w.temperature_c
  have hps : (0 : ℚ) ≤ precip_score w.precipitation_mm :=
    lo_le_clip _ _ _ (by norm_num)
  have hws : (0 : ℚ) ≤ wind_score w.wind_speed_ms :=
    lo_le_clip _ _ _ (by norm_num)
  have hss := sun_score_ge h0
  have hcs := (cloud_score_bounds (α := ℚ) w.cloud_cover_oktas).1
  have hS : (scoreRow w).SSI = SSI_of (temp_score w.temperature_c)
      (precip_score w.precipitation_mm) (wind_score w.wind_speed_ms)
      (sun_score w.sunshine_minutes) (cloud_score w.cloud_cover_oktas) := rfl
  rw [hS]
  unfold SSI_of
  exact ⟨by linarith, fun hle => by linarith⟩

/-- C9 witness: the single-row input (T=20, P=0, W=5, S=60, C=0) has
non-negative sunshine and its SSI is bounded below by 8.75. -/
theorem C9_witness :
    (∀ w ∈ [(⟨20, 0, 5, 60, 0⟩ : WeatherRow ℚ)], 0 ≤ w.sunshine_minutes) ∧
    (35/4 ≤ (scoreRow (⟨20, 0, 5, 60, 0⟩ : WeatherRow ℚ)).SSI ∧
      ¬ (scoreRow (⟨20, 0, 5, 60, 0⟩ : WeatherRow ℚ)).SSI ≤ 0) := by
  have hs : ∀ w ∈ [(⟨20, 0, 5, 60, 0⟩ : WeatherRow ℚ)], 0 ≤ w.sunshine_minutes := by
    intro w hw
    rcases List.mem_singleton.1 hw with rfl
    norm_num
  exact ⟨hs, C9_ssi_lower_bound [⟨20, 0, 5, 60, 0⟩] hs
    (scoreRow ⟨20, 0, 5, 60, 0⟩) (List.mem_singleton.2 rfl)⟩

/-! ## Nearest-station lemmas and claims -/

lemma distSq_nonneg (lat lon : ℚ) (s : Station) : 0 ≤ distSq lat lon s := by
  unfold distSq
  positivity

lemma nearestFrom_mem_min (lat lon : ℚ) :
    ∀ (rest : List Station) (best : Station),
      ∃ i : ℕ, (best :: rest)[i]? = some (nearestFrom lat lon best rest) ∧
        (∀ (j : ℕ) (t : Station), (best :: rest)[j]? = some t →
          distSq lat lon (nearestFrom lat lon best rest) ≤ distSq lat lon t) ∧
        (∀ (j : ℕ) (t : Station), j < i → (best :: rest)[j]? = some t →
          distSq lat lon (nearestFrom lat lon best rest) < distSq lat lon t) := by
  intro rest
  induction rest with
  | nil =>
    intro best
    refine ⟨0, by simp [nearestFrom], ?_, ?_⟩
    · intro j t hj
      cases j with
      | zero =>
        simp at hj
        subst hj
        exact le_refl _
      | succ k => simp at hj
    · intro j t hjlt _
      exact absurd hjlt (Nat.not_lt_zero j)
  | cons u rest ih =>
    intro best
    simp only [nearestFrom]
    obtain ⟨i, hget, hmin, hfirst⟩ := ih (nearBetter lat lon best u)
    by_cases hlt : distSq lat lon u < distSq lat lon best
    · have hnb : nearBetter lat lon best u = u := if_pos hlt
      rw [hnb] at hget hmin hfirst ⊢
      refine ⟨i + 1, by simpa using hget, ?_, ?_⟩
      · intro j t hj
        cases j with
        | zero =>
          simp at hj
          subst hj
          exact le_of_lt (lt_of_le_of_lt (hmin 0 u (by simp)) hlt)
        | succ k =>
          exact hmin k t (by simpa using hj)
      · intro j t hjlt hj
        cases j with
        | zero =>
          simp at hj
          subst hj
          exact lt_of_le_of_lt (hmin 0 u (by simp)) hlt
        | succ k =>
          exact hfirst k t (Nat.succ_lt_succ_iff.1 hjlt) (by simpa using hj)
    · have hnb : nearBetter lat lon best u = best := if_neg hlt
      have hub : distSq lat lon best ≤ distSq lat lon u := le_of_not_lt hlt
      rw [hnb] at hget hmin hfirst ⊢
      cases i with
      | zero =>
        have hbr : best = nearestFrom lat lon best rest := by simpa using hget
        refine ⟨0, by simpa using congrArg some hbr, ?_, ?_⟩
        · intro j t hj
          cases j with
          | zero =>
            simp at hj
            subst hj
            exact hmin 0 best (by simp)
          | succ k =>
            cases k with
            | zero =>
              simp at hj
              subst hj
              exact le_trans (hmin 0 best (by simp)) hub
            | succ m =>
              exact hmin (m + 1) t (by simpa using hj)
        · intro j t hjlt _
          exact absurd hjlt (Nat.not_lt_zero j)
      | succ k =>
        refine ⟨k + 2, by simpa using hget, ?_, ?_⟩
        · intro j t hj
          cases j with
          | zero =>
            simp at hj
            subst hj
            exact hmin 0 best (by simp)
          | succ m =>
            cases m with
            | zero =>
              simp at hj
              subst hj
              exact le_trans (hmin 0 best (by simp)) hub
            | succ p =>
              exact hmin (p + 1) t (by simpa using hj)
        · intro j t hjlt hj
          cases j with
          | zero =>
            simp at hj
            subst hj
            exact hfirst 0 best (Nat.succ_pos k) (by simp)
          | succ m =>
            cases m with
            | zero =>
              simp at hj
              subst hj
              exact lt_of_lt_of_le (hfirst 0 best (Nat.succ_pos k) (by simp)) hub
            | succ p =>
              exact hfirst (p + 1) t (by omega) (by simpa using hj)

/-- C5: on a non-empty catalog, `find_nearest_station` returns the catalog
record minimizing the planar Euclidean degree-space distance
`sqrt((lat_s−lat)² + (lon_s−lon)²)`, with ties broken by catalog iteration
order (the first minimum wins: every strictly earlier record is strictly
farther), and the returned squared distance determines
`distance_km = sqrt(d²)·111` exactly as the source computes it. -/
theorem C5_nearest_station (catalog : List Station) (lat lon : ℚ)
    (hne : catalog ≠ []) :
    ∃ s, find_nearest_station catalog lat lon = some (s, distSq lat lon s) ∧
      (∃ i : ℕ, catalog[i]? = some s ∧
        (∀ (j : ℕ) (t : Station), catalog[j]? = some t →
          Real.sqrt ((distSq lat lon s : ℚ) : ℝ) ≤
            Real.sqrt ((distSq lat lon t : ℚ) : ℝ)) ∧
        (∀ (j : ℕ) (t : Station), j < i → catalog[j]? = some t →
          Real.sqrt ((distSq lat lon s : ℚ) : ℝ) <
            Real.sqrt ((distSq lat lon t : ℚ) : ℝ))) ∧
      Real.sqrt ((distSq lat lon s : ℚ) : ℝ) * 111 =
        Real.sqrt (((s.lat : ℝ) - (lat : ℝ)) ^ 2 +
          ((s.lon : ℝ) - (lon : ℝ)) ^ 2) * 111 := by
  obtain ⟨c, rest, rfl⟩ := List.exists_cons_of_ne_nil hne
  refine ⟨nearestFrom lat lon c rest, rfl, ?_, ?_⟩
  · obtain ⟨i, hget, hmin, hfirst⟩ := nearestFrom_mem_min lat lon rest c
    refine ⟨i, hget, ?_, ?_⟩
    · intro j t hj
      exact Real.sqrt_le_sqrt (by exact_mod_cast hmin j t hj)
    · intro j t hjlt hj
      refine Real.sqrt_lt_sqrt ?_ ?_
      · exact_mod_cast distSq_nonneg lat lon _
      · exact_mod_cast hfirst j t hjlt hj
  · congr 2
    push_cast [distSq]
    ring

/-- The two-station catalog of the claim's worked example. -/
def exampleCatalog : List Station :=
  [ ⟨"00954", "Hamburg-Fuhlsbuettel", 536332/10000, 99881/10000, 11⟩,
    ⟨"00691", "Bremen", 530475/10000, 87981/10000, 5⟩ ]

/-- C5 witness: for the catalog with stations at (53.6332, 9.9881) and
(53.0475, 8.7981) and query (53.55, 9.99), the first station is returned. -/
theorem C5_witness :
    (exampleCatalog ≠ []) ∧
    (find_nearest_station exampleCatalog (5355/100) (999/100)).map
      (fun p => p.1.station_id) = some "00954" ∧
    (∃ s, find_nearest_station exampleCatalog (5355/100) (999/100) =
        some (s, distSq (5355/100) (999/100) s) ∧
      (∃ i : ℕ, exampleCatalog[i]? = some s ∧
        (∀ (j : ℕ) (t : Station), exampleCatalog[j]? = some t →
          Real.sqrt ((distSq (5355/100) (999/100) s : ℚ) : ℝ) ≤
            Real.sqrt ((distSq (5355/100) (999/100) t : ℚ) : ℝ)) ∧
        (∀ (j : ℕ) (t : Station), j < i → exampleCatalog[j]? = some t →
          Real.sqrt ((distSq (5355/100) (999/100) s : ℚ) : ℝ) <
            Real.sqrt ((distSq (5355/100) (999/100) t : ℚ) : ℝ))) ∧
      Real.sqrt ((distSq (5355/100) (999/100) s : ℚ) : ℝ) * 111 =
        Real.sqrt (((s.lat : ℝ) - ((5355/100 : ℚ) : ℝ)) ^ 2 +
          ((s.lon : ℝ) - ((999/100 : ℚ) : ℝ)) ^ 2) * 111) :=
  ⟨List.cons_ne_nil _ _,
    by norm_num [exampleCatalog, find_nearest_station, nearestFrom, nearBetter,
      distSq],
    C5_nearest_station exampleCatalog (5355/100) (999/100)
      (List.cons_ne_nil _ _)⟩

/-- C6: on an empty catalog `find_nearest_station` returns the explicit
absent result `None` for every query coordinate; the function is total, so
no exception is possible. -/
theorem C6_empty_catalog (lat lon : ℚ) :
    find_nearest_station [] lat lon = none := rfl

/-! ## Generator lemmas and claims -/

lemma series_length (now : ℚ) (hours : ℕ) (v : ℕ → ℝ) :
    (series now hours v).length = hours + 1 := by
  simp [series]

lemma series_map_fst (now : ℚ) (hours : ℕ) (v : ℕ → ℝ) :
    (series now hours v).map Prod.fst = dateRange now hours := by
  unfold series dateRange
  rw [List.map_map]
  rfl

lemma dateRange_chain (now : ℚ) (hours : ℕ) :
    List.Chain' (fun a b => b = a + 1) (dateRange now hours) := by
  unfold dateRange
  rw [List.chain'_map, List.chain'_range_succ]
  intro m _
  unfold tsAt
  push_cast
  ring

lemma dateRange_sorted (now : ℚ) (hours : ℕ) :
    List.Pairwise (fun a b => a < b) (dateRange now hours) := by
  unfold dateRange
  rw [List.pairwise_map]
  refine List.Pairwise.imp ?_ (List.pairwise_lt_range _)
  intro a b hab
  unfold tsAt
  have hq : (a : ℚ) < b := by exact_mod_cast hab
  linarith

lemma dateRange_last (now : ℚ) (hours : ℕ) :
    (dateRange now hours).getLast? = some now := by
  unfold dateRange
  rw [List.range_succ, List.map_append]
  simp only [List.map_cons, List.map_nil, List.getLast?_concat]
  unfold tsAt
  norm_num

/-- C7: for every station id and non-negative duration `h`,
`generate_weather_data` returns exactly five series, each of length
`h + 1`, all sharing the identical timestamp index `dateRange now h`,
which is strictly increasing, spaced exactly one hour apart, and ends at
the call time `now`.  Taking `h = 0` this specializes to a single-point
series. -/
theorem C7_series_structure (sid : String) (h : ℕ) (now : ℚ)
    (rnd : Randomness) :
    ((generate_weather_data sid h now rnd).temperature.length = h + 1 ∧
     (generate_weather_data sid h now rnd).precipitation.length = h + 1 ∧
     (generate_weather_data sid h now rnd).wind.length = h + 1 ∧
     (generate_weather_data sid h now rnd).sunshine.length = h + 1 ∧
     (generate_weather_data sid h now rnd).cloudiness.length = h + 1) ∧
    ((generate_weather_data sid h now rnd).temperature.map Prod.fst =
        dateRange now h ∧
     (generate_weather_data sid h now rnd).precipitation.map Prod.fst =
        dateRange now h ∧
     (generate_weather_data sid h now rnd).wind.map Prod.fst =
        dateRange now h ∧
     (generate_weather_data sid h now rnd).sunshine.map Prod.fst =
        dateRange now h ∧
     (generate_weather_data sid h now rnd).cloudiness.map Prod.fst =
        dateRange now h) ∧
    List.Chain' (fun a b => b = a + 1) (dateRange now h) ∧
    List.Pairwise (fun a b => a < b) (dateRange now h) ∧
    (dateRange now h).getLast? = some now :=
  ⟨⟨series_length now h _, series_length now h _, series_length now h _,
    series_length now h _, series_length now h _⟩,
   ⟨series_map_fst now h _, series_map_fst now h _, series_map_fst now h _,
    series_map_fst now h _, series_map_fst now h _⟩,
   dateRange_chain now h, dateRange_sorted now h, dateRange_last now h⟩

/-- C8: two calls of `generate_weather_data` with the same duration, the
same call time and the same random draws but different station ids return
identical outputs — the generator never reads its `station_id` argument. -/
theorem C8_station_independent (sid1 sid2 : String) (h : ℕ) (now : ℚ)
    (rnd : Randomness) :
    generate_weather_data sid1 h now rnd =
      generate_weather_data sid2 h now rnd := rfl

/-- C10: whenever the Beta(2,5) draws lie in their support [0,1], every
generated `sunshine_minutes` value lies in [0, 60] (it is `60·(1 − b)`
during daylight hours and 0 otherwise), so the unclamped `sun_score`
computed from generator output always lies in [25, 100] and never exceeds
100. -/
theorem C10_sunshine_in_range (sid : String) (h : ℕ) (now : ℚ)
    (rnd : Randomness)
    (hb : ∀ i, 0 ≤ rnd.cloudFactor i ∧ rnd.cloudFactor i ≤ 1) :
    ∀ p ∈ (generate_weather_data sid h now rnd).sunshine,
      (0 ≤ p.2 ∧ p.2 ≤ 60) ∧ (25 ≤ sun_score p.2 ∧ sun_score p.2 ≤ 100) := by
  intro p hp
  have hp2 : p ∈ series now h (sunshineAt now h rnd) := hp
  obtain ⟨i, _, rfl⟩ := List.mem_map.1 hp2
  have hv : (0 : ℝ) ≤ sunshineAt now h rnd i ∧ sunshineAt now h rnd i ≤ 60 := by
    unfold sunshineAt
    split_ifs with hd
    · obtain ⟨h0, h1⟩ := hb i
      constructor <;> linarith
    · norm_num
  exact ⟨hv, sun_score_ge hv.1, sun_score_le hv.2⟩

/-- Concrete random draws: all noise zero, all Beta draws 1/2. -/
noncomputable def rndConst : Randomness :=
  ⟨fun _ => 0, fun _ => 0, fun _ => 0, fun _ => 0, fun _ => 1/2, fun _ => 0⟩

/-- C10 witness: with Beta draws constantly 1/2 (inside [0,1]) and a
three-point series, every sunshine value is in [0,60] and every derived
sun_score in [25,100]. -/
theorem C10_witness :
    (∀ i, 0 ≤ rndConst.cloudFactor i ∧ rndConst.cloudFactor i ≤ 1) ∧
    ∀ p ∈ (generate_weather_data "00954" 2 0 rndConst).sunshine,
      (0 ≤ p.2 ∧ p.2 ≤ 60) ∧ (25 ≤ sun_score p.2 ∧ sun_score p.2 ≤ 100) := by
  have hb : ∀ i, 0 ≤ rndConst.cloudFactor i ∧ rndConst.cloudFactor i ≤ 1 := by
    intro i
    constructor <;> norm_num [rndConst]
  exact ⟨hb, C10_sunshine_in_range "00954" 2 0 rndConst hb⟩

end SurveyStorm
